import Mathlib

/-!
Verification development for the synthetic-data-uploader repository.

The repository is a Shopify app: a Remix frontend (`app/routes/app._index.tsx`)
that forwards five operations (preview, generate-orders, generate-inventory,
clear, reset) to a Python FastAPI backend, and a prompt/schema file
(`backend/prompts.yaml`) holding the JSON Schemas the backend validates the
model output against.  The backend Python sources are not part of the
source tree available here; components that live there (BatchApplier,
SchemaValidatingGenerator, LifecycleManager, CatalogSnapshot, PromptComposer,
PreviewService) are modelled from the specification, as flagged in their doc
comments.  The JSON Schemas and the Remix action handler are embedded
directly from the source files.
-/

/-- Structured data values, as produced by parsing the model's raw text
response (JSON).  Numbers are modelled as integers: every numeric field in
the two response schemas (`quantity`, `adjustment`, `variant_id`,
`product_id`) is declared `"type": "integer"`. -/
inductive Json where
  | null : Json
  | bool : Bool → Json
  | num : Int → Json
  | str : String → Json
  | arr : List Json → Json
  | obj : List (String × Json) → Json

/-- Field lookup in a JSON object (first binding wins). -/
def lookupField : List (String × Json) → String → Option Json
  | [], _ => none
  | (k, v) :: rest, key => if k = key then some v else lookupField rest key

/-- JSON Schema `"type": "string"` check. -/
def isStringJson : Json → Bool
  | .str _ => true
  | _ => false

/-- JSON Schema `"type": "integer"` check (numbers are modelled as `Int`). -/
def isIntJson : Json → Bool
  | .num _ => true
  | _ => false

/-- JSON Schema `"type": "boolean"` check. -/
def isBoolJson : Json → Bool
  | .bool _ => true
  | _ => false

/-- JSON Schema semantics of a `properties` entry: the subschema constrains
the field only when the field is present. -/
def propValid (fs : List (String × Json)) (k : String) (p : Json → Bool) : Bool :=
  match lookupField fs k with
  | none => true
  | some v => p v

/-- JSON Schema semantics of a `required` entry. -/
def requiredPresent (fs : List (String × Json)) (k : String) : Bool :=
  (lookupField fs k).isSome

/-- The fixed prefix of the `variantId` pattern
`^gid://shopify/ProductVariant/\d+$` from `order_response_schema`. -/
def gidVariantChars : List Char := "gid://shopify/ProductVariant/".data

/-- The regular expression `^gid://shopify/ProductVariant/\d+$` used for
`lineItems.items.properties.variantId.pattern` in `order_response_schema`
(`backend/prompts.yaml`): the fixed text followed by one or more digits. -/
def variantIdPattern (s : String) : Bool :=
  gidVariantChars.isPrefixOf s.data &&
    (let rest := s.data.drop gidVariantChars.length
     !rest.isEmpty && rest.all Char.isDigit)

/-- A line item per `order_response_schema` (`backend/prompts.yaml` lines
200-218): object with `variantId` (string matching the gid pattern),
`quantity` (integer, minimum 1, maximum 5), optional `taxable` (boolean);
`required`: `variantId`, `quantity`. -/
def lineItemValid (j : Json) : Bool :=
  match j with
  | .obj fs =>
      propValid fs "variantId" (fun v =>
        match v with
        | .str s => variantIdPattern s
        | _ => false) &&
      propValid fs "quantity" (fun v =>
        match v with
        | .num n => decide (1 ≤ n) && decide (n ≤ 5)
        | _ => false) &&
      propValid fs "taxable" isBoolJson &&
      requiredPresent fs "variantId" &&
      requiredPresent fs "quantity"
  | _ => false

/-- The seven required string fields of `shippingAddress` in
`order_response_schema`. -/
def shippingAddressFields : List String :=
  ["address1", "city", "province", "country", "zip", "firstName", "lastName"]

/-- `shippingAddress` subschema of `order_response_schema`: all seven
fields are string-typed and required. -/
def shippingAddressValid (j : Json) : Bool :=
  match j with
  | .obj fs =>
      shippingAddressFields.all
        (fun k => propValid fs k isStringJson && requiredPresent fs k)
  | _ => false

/-- A `customAttributes` entry per `order_response_schema`: object with
string `key` and string `value`, both required. -/
def customAttributeValid (j : Json) : Bool :=
  match j with
  | .obj fs =>
      propValid fs "key" isStringJson &&
      propValid fs "value" isStringJson &&
      requiredPresent fs "key" &&
      requiredPresent fs "value"
  | _ => false

/-- The `const` value of the `note` property in `order_response_schema`. -/
def orderNoteText : String := "Created via Synthetic Data Generator"

/-- The `required` list of an order item in `order_response_schema`. -/
def orderRequiredFields : List String :=
  ["email", "tags", "lineItems", "shippingAddress", "note", "customAttributes"]

/-- One element of the `orders` array per `order_response_schema`
(`backend/prompts.yaml` lines 184-270).  Note: the schema gives `tags` a
`default` of `["AI_GENERATED"]` but asserts only that `tags` is an array of
strings; `customAttributes` requires at least two key/value entries but no
particular keys or values (JSON Schema `default` is an annotation, not an
assertion). -/
def orderDraftValid (j : Json) : Bool :=
  match j with
  | .obj fs =>
      propValid fs "email" isStringJson &&
      propValid fs "tags" (fun v =>
        match v with
        | .arr xs => xs.all isStringJson
        | _ => false) &&
      propValid fs "lineItems" (fun v =>
        match v with
        | .arr xs => xs.all lineItemValid && decide (1 ≤ xs.length)
        | _ => false) &&
      propValid fs "shippingAddress" shippingAddressValid &&
      propValid fs "note" (fun v =>
        match v with
        | .str s => s == orderNoteText
        | _ => false) &&
      propValid fs "customAttributes" (fun v =>
        match v with
        | .arr xs => xs.all customAttributeValid && decide (2 ≤ xs.length)
        | _ => false) &&
      orderRequiredFields.all (requiredPresent fs)
  | _ => false

/-- Top level of `order_response_schema`: an object with a required
`orders` array whose elements satisfy the order item subschema. -/
def orderResponseValid (j : Json) : Bool :=
  match j with
  | .obj fs =>
      propValid fs "orders" (fun v =>
        match v with
        | .arr xs => xs.all orderDraftValid
        | _ => false) &&
      requiredPresent fs "orders"
  | _ => false

/-- The `enum` of the `reason` property in `inventory_response_schema`. -/
def reasonEnum : List String := ["recount", "received", "damaged", "sold"]

/-- One element of the `adjustments` array per `inventory_response_schema`
(`backend/prompts.yaml` lines 338-365): integer `variant_id`, `product_id`,
`adjustment` in [-5, 10], optional string `sku`, `reason` from the fixed
enum, string `timestamp`; required: `variant_id`, `product_id`,
`adjustment`, `reason`, `timestamp`. -/
def inventoryAdjustmentValid (j : Json) : Bool :=
  match j with
  | .obj fs =>
      propValid fs "variant_id" isIntJson &&
      propValid fs "product_id" isIntJson &&
      propValid fs "adjustment" (fun v =>
        match v with
        | .num n => decide (-5 ≤ n) && decide (n ≤ 10)
        | _ => false) &&
      propValid fs "sku" isStringJson &&
      propValid fs "reason" (fun v =>
        match v with
        | .str s => reasonEnum.contains s
        | _ => false) &&
      propValid fs "timestamp" isStringJson &&
      ["variant_id", "product_id", "adjustment", "reason", "timestamp"].all
        (requiredPresent fs)
  | _ => false

/-- Top level of `inventory_response_schema`: an object with a required
`adjustments` array whose elements satisfy the adjustment subschema. -/
def inventoryResponseValid (j : Json) : Bool :=
  match j with
  | .obj fs =>
      propValid fs "adjustments" (fun v =>
        match v with
        | .arr xs => xs.all inventoryAdjustmentValid
        | _ => false) &&
      requiredPresent fs "adjustments"
  | _ => false

/-- The array stored under a root key of a response object, when present. -/
def rootArray (key : String) (j : Json) : Option (List Json) :=
  match j with
  | .obj fs =>
      match lookupField fs key with
      | some (.arr xs) => some xs
      | _ => none
  | _ => none

/-- Aggregated result of applying a batch: ordered succeeded items and
ordered failed items, each failure carrying the original record plus an
error description (spec §3 `ApplyOutcome`). -/
structure ApplyOutcome (α : Type) (β : Type) where
  succeeded : List β
  failed : List (α × String)

/-- Modelled from the spec: `BatchApplier.apply` (spec §4.4); the backend
Python implementation is not in the source tree.  For each record, in input
order, independently invoke the create operation; a success appends the
remote result to `succeeded`, any error appends the record with its reason
to `failed`; one item's failure never aborts the rest. -/
def BatchApplier.apply {α β : Type} : List α → (α → Except String β) → ApplyOutcome α β
  | [], _ => ⟨[], []⟩
  | r :: rest, create =>
    let tail := BatchApplier.apply rest create
    match create r with
    | .ok b => ⟨b :: tail.succeeded, tail.failed⟩
    | .error e => ⟨tail.succeeded, (r, e) :: tail.failed⟩

/-- The process-wide marker tag value stamped on every synthetic entity
(spec §6): `AI_GENERATED`; also the literal `tags` default in
`order_generation` of `backend/prompts.yaml`. -/
def markerTag : String := "AI_GENERATED"

/-- A remote commerce entity as seen by the lifecycle queries: an
identifier plus its tag set. -/
structure RemoteEntity where
  entityId : Nat
  tags : List String

/-- The subset of remote entities bearing the marker tag, in query order. -/
def taggedEntities (entities : List RemoteEntity) : List RemoteEntity :=
  entities.filter (fun e => e.tags.contains markerTag)

/-- Modelled from the spec: `LifecycleManager.clearGenerated` (spec §4.5);
the backend Python implementation is not in the source tree.  Queries the
entities bearing the marker and deletes each independently with the same
per-item isolation as `BatchApplier.apply`. -/
def clearGenerated (entities : List RemoteEntity)
    (deleteOp : RemoteEntity → Except String Nat) : ApplyOutcome RemoteEntity Nat :=
  BatchApplier.apply (taggedEntities entities) deleteOp

/-- A previously applied inventory adjustment as recorded remotely: the
variant it touched, the signed delta, and its tag set. -/
structure AppliedAdjustment where
  variantId : Int
  delta : Int
  tags : List String

/-- The subset of recorded adjustments bearing the marker tag. -/
def taggedAdjustments (history : List AppliedAdjustment) : List AppliedAdjustment :=
  history.filter (fun a => a.tags.contains markerTag)

/-- Modelled from the spec: `LifecycleManager.resetInventory` (spec §4.5);
the backend Python implementation is not in the source tree.  Queries the
marker-tagged adjustments and applies the inverse adjustment (negated
delta) for each, per-item isolated. -/
def resetInventory (history : List AppliedAdjustment)
    (adjustOp : Int → Int → Except String Nat) : ApplyOutcome AppliedAdjustment Nat :=
  BatchApplier.apply (taggedAdjustments history)
    (fun a => adjustOp a.variantId (-a.delta))

/-- Errors of the generation pipeline (spec §7). -/
inductive GenError where
  | modelUnavailable : String → GenError
  | generationInvalid : String → GenError
  deriving DecidableEq

/-- Outcome of one model invocation after parsing and schema validation:
the model call itself errored, the output failed parsing or validation
(with the validation error), or a validated record list was extracted. -/
inductive AttemptResult where
  | modelErr : String → AttemptResult
  | invalid : String → AttemptResult
  | valid : List Json → AttemptResult

/-- One attempt of the generator: invoke the model (indexed by attempt
number, which abstracts the corrective-feedback prompt augmentation of
spec §4.3), parse the raw text, and validate the parsed value. -/
def attemptStep (modelCall : Nat → Except String String)
    (parse : String → Option Json)
    (validate : Json → Except String (List Json)) (i : Nat) : AttemptResult :=
  match modelCall i with
  | .error e => .modelErr e
  | .ok raw =>
    match parse raw with
    | none => .invalid "model output did not parse as structured data"
    | some j =>
      match validate j with
      | .error e => .invalid e
      | .ok recs => .valid recs

/-- Result of `generate` together with the number of model invocations
actually made (the observable the retry bound speaks about). -/
structure GenOutcome where
  result : Except GenError (List Json)
  attemptsMade : Nat

/-- Retry loop of the generator: `used` attempts already made, remaining
attempt budget, and the latest validation error.  Budget exhausted fails
with `GenerationInvalid` carrying the last validation error; a model error
is terminal (`ModelUnavailable`, not retried); an invalid attempt consumes
budget and retries. -/
def generateLoop (step : Nat → AttemptResult) : Nat → Nat → String → GenOutcome
  | used, 0, lastErr => ⟨.error (.generationInvalid lastErr), used⟩
  | used, fuel + 1, _ =>
    match step used with
    | .modelErr e => ⟨.error (.modelUnavailable e), used + 1⟩
    | .valid recs => ⟨.ok recs, used + 1⟩
    | .invalid e => generateLoop step (used + 1) fuel e

/-- Modelled from the spec: `SchemaValidatingGenerator.generate`
(spec §4.3); the backend Python implementation is not in the source tree.
Invoke the model, parse, validate, and retry on parse/validation failure up
to `maxAttempts`; on success return exactly the validated record list. -/
def SchemaValidatingGenerator.generate (modelCall : Nat → Except String String)
    (parse : String → Option Json)
    (validate : Json → Except String (List Json)) (maxAttempts : Nat) : GenOutcome :=
  generateLoop (attemptStep modelCall parse validate) 0 maxAttempts
    "no attempt was made"

/-- Schema validation step for an order-generation response: accept the
parsed value when it matches `order_response_schema` and extract the
`orders` array verbatim; reject with a validation error otherwise. -/
def validateOrdersResponse (j : Json) : Except String (List Json) :=
  if orderResponseValid j then
    match rootArray "orders" j with
    | some xs => .ok xs
    | none => .error "orders root key missing"
  else .error "response does not match order_response_schema"

/-- Schema validation step for an inventory-generation response: accept
when it matches `inventory_response_schema` and extract the `adjustments`
array verbatim. -/
def validateAdjustmentsResponse (j : Json) : Except String (List Json) :=
  if inventoryResponseValid j then
    match rootArray "adjustments" j with
    | some xs => .ok xs
    | none => .error "adjustments root key missing"
  else .error "response does not match inventory_response_schema"

/-- Endpoint dispatch of the Remix `action` handler
(`app/routes/app._index.tsx` lines 221-225): a chain of strict equality
tests on `formData.get("action")` (which is `null` when absent, modelled as
`none`) falling through to `/reset-inventory`. -/
def endpointFor (a : Option String) : String :=
  if a = some "preview" then "/preview"
  else if a = some "generate-orders" then "/generate-orders"
  else if a = some "generate-inventory" then "/generate-inventory"
  else if a = some "clear" then "/clear-orders"
  else "/reset-inventory"

/-- Whitespace skipped by JavaScript `parseInt` (the ASCII part). -/
def jsWhitespace (c : Char) : Bool :=
  c = ' ' || c = '\t' || c = '\n' || c = '\r' || c = '\x0b' || c = '\x0c'

/-- Numeric value of a decimal digit character. -/
def digitVal (c : Char) : Nat := c.toNat - '0'.toNat

/-- Maximal run of decimal digits, `none` when there is no digit
(JavaScript `parseInt` yields `NaN` then). -/
def parseDecDigits (cs : List Char) : Option Nat :=
  let ds := cs.takeWhile Char.isDigit
  if ds.isEmpty then none
  else some (ds.foldl (fun acc c => acc * 10 + digitVal c) 0)

/-- Hexadecimal digit test for the `0x` branch of `parseInt`. -/
def jsHexDigit (c : Char) : Bool :=
  c.isDigit || ('a' ≤ c && c ≤ 'f') || ('A' ≤ c && c ≤ 'F')

/-- Numeric value of a hexadecimal digit character. -/
def hexDigitVal (c : Char) : Nat :=
  if c.isDigit then c.toNat - '0'.toNat
  else if 'a' ≤ c && c ≤ 'f' then c.toNat - 'a'.toNat + 10
  else c.toNat - 'A'.toNat + 10

/-- Maximal run of hexadecimal digits, `none` when empty. -/
def parseHexDigits (cs : List Char) : Option Nat :=
  let ds := cs.takeWhile jsHexDigit
  if ds.isEmpty then none
  else some (ds.foldl (fun acc c => acc * 16 + hexDigitVal c) 0)

/-- Unsigned part of JavaScript `parseInt` with no radix argument: a `0x`
or `0X` prefix switches to hexadecimal, otherwise decimal. -/
def parseUnsigned (cs : List Char) : Option Nat :=
  match cs with
  | '0' :: 'x' :: rest => parseHexDigits rest
  | '0' :: 'X' :: rest => parseHexDigits rest
  | _ => parseDecDigits cs

/-- JavaScript `parseInt(s)`: skip leading whitespace, read an optional
sign, then the longest digit run; `none` models `NaN`. -/
def jsParseInt (s : String) : Option Int :=
  match s.data.dropWhile jsWhitespace with
  | '-' :: rest => (parseUnsigned rest).map (fun n => -(n : Int))
  | '+' :: rest => (parseUnsigned rest).map (fun n => (n : Int))
  | rest => (parseUnsigned rest).map (fun n => (n : Int))

/-- Runtime value reaching `parseInt(count as string)`: `formData.get`
returns `null` for a missing field, which `parseInt` coerces to the string
`"null"`. -/
def formValueAsString : Option String → String
  | none => "null"
  | some s => s

/-- JavaScript `x || d` where `x` is a `parseInt` result: `NaN` (`none`)
and `0` are falsy, so both select the default. -/
def jsOrDefault (v : Option Int) (d : Int) : Int :=
  match v with
  | none => d
  | some n => if n = 0 then d else n

/-- The `num_items` field of the request body built by the `action`
handler (`app/routes/app._index.tsx` line 233):
`parseInt(count as string) || 5`. -/
def requestNumItems (count : Option String) : Int :=
  jsOrDefault (jsParseInt (formValueAsString count)) 5

/-- The `date_range_days` field of the request body
(`app/routes/app._index.tsx` line 234):
`parseInt(dateRange as string) || 30`. -/
def requestDateRangeDays (dateRange : Option String) : Int :=
  jsOrDefault (jsParseInt (formValueAsString dateRange)) 30

/-- Read-only projection of one remote catalog entry (spec §3
`CatalogItem`); the price is kept as the string Shopify returns. -/
structure CatalogItem where
  productId : Nat
  variantId : Nat
  price : String
  sku : String
  title : String

/-- Calls issued against the commerce API by the pipeline: one read
(product fetch) and the two create mutations. -/
inductive ApiCall where
  | fetchProducts : Nat → ApiCall
  | draftOrderCreate : Json → ApiCall
  | inventoryAdjustCreate : Json → ApiCall

/-- Whether a commerce API call mutates remote store state. -/
def isMutationCall : ApiCall → Bool
  | .fetchProducts _ => false
  | .draftOrderCreate _ => true
  | .inventoryAdjustCreate _ => true

/-- Remote store state observable through the commerce API: the created
orders and the applied inventory adjustments. -/
structure StoreState where
  orders : List Json
  adjustments : List Json

/-- Effect of one commerce API call on remote store state: reads leave the
state unchanged, creates add the record. -/
def applyCall (s : StoreState) : ApiCall → StoreState
  | .fetchProducts _ => s
  | .draftOrderCreate j => ⟨j :: s.orders, s.adjustments⟩
  | .inventoryAdjustCreate j => ⟨s.orders, j :: s.adjustments⟩

/-- Effect of a call sequence on remote store state. -/
def runCalls (s : StoreState) (calls : List ApiCall) : StoreState :=
  calls.foldl applyCall s

/-- Fatal pipeline errors (spec §7). -/
inductive PipelineError where
  | upstreamUnavailable : PipelineError
  | emptyCatalog : PipelineError
  | modelUnavailable : String → PipelineError
  | generationInvalid : String → PipelineError

/-- Generator errors embedded into pipeline errors. -/
def liftGenError : GenError → PipelineError
  | .modelUnavailable e => .modelUnavailable e
  | .generationInvalid e => .generationInvalid e

/-- Modelled from the spec: `CatalogSnapshot.fetch` (spec §4.1); the
backend Python implementation is not in the source tree.  The remote
catalog is `none` when the commerce API is unreachable
(`UpstreamUnavailable`); an empty catalog fails with `EmptyCatalog`;
otherwise the first `limit` items are returned.  The call trace is the
single product read. -/
def CatalogSnapshot.fetch (remoteCatalog : Option (List CatalogItem)) (limit : Nat) :
    Except PipelineError (List CatalogItem) × List ApiCall :=
  match remoteCatalog with
  | none => (.error .upstreamUnavailable, [.fetchProducts limit])
  | some items =>
    if items.isEmpty then (.error .emptyCatalog, [.fetchProducts limit])
    else (.ok (items.take limit), [.fetchProducts limit])

/-- Modelled from the spec: the serialized projection of one catalog item
embedded in the prompt (spec §4.2); the backend serializer is not in the
source tree. -/
def serializeCatalogItem (c : CatalogItem) : String :=
  "\x7b\"product_id\": " ++ toString c.productId ++
  ", \"variant_id\": " ++ toString c.variantId ++
  ", \"price\": \"" ++ c.price ++
  "\", \"sku\": \"" ++ c.sku ++
  "\", \"title\": \"" ++ c.title ++ "\"\x7d"

/-- Serialized catalog projection (`products_json` in the template). -/
def serializeCatalog (items : List CatalogItem) : String :=
  "[" ++ String.intercalate ", " (items.map serializeCatalogItem) ++ "]"

/-- The literal order structure block of the `order_generation` template
(`backend/prompts.yaml` lines 28-58), as rendered (the doubled braces of
the template render to single braces). -/
def orderStructureText : String :=
  String.intercalate "\n"
    [ "\x7b",
      "  \"email\": \"string (valid email)\",",
      "  \"tags\": [\"AI_GENERATED\"],",
      "  \"lineItems\": [",
      "    \x7b",
      "      \"variantId\": \"string (format: gid://shopify/ProductVariant/INTEGER_ID)\",",
      "      \"quantity\": \"integer (1-5)\",",
      "      \"taxable\": true",
      "    \x7d",
      "  ],",
      "  \"shippingAddress\": \x7b",
      "    \"address1\": \"string\",",
      "    \"city\": \"string\",",
      "    \"province\": \"string\",",
      "    \"country\": \"string\",",
      "    \"zip\": \"string\",",
      "    \"firstName\": \"string\",",
      "    \"lastName\": \"string\"",
      "  \x7d,",
      "  \"note\": \"Created via Synthetic Data Generator\",",
      "  \"customAttributes\": [",
      "    \x7b",
      "      \"key\": \"source\",",
      "      \"value\": \"synthetic_data\"",
      "    \x7d,",
      "    \x7b",
      "      \"key\": \"generated_at\",",
      "      \"value\": \"ISO8601 timestamp\"",
      "    \x7d",
      "  ]",
      "\x7d" ]

/-- Modelled from the spec: `PromptComposer.compose` for orders
(spec §4.2); the backend Python implementation is not in the source tree.
Renders the `order_generation` template of `backend/prompts.yaml` (lines
20-58), embedding the requested count, the serialized catalog and the
date-range constraint.  The response schema side of the pair is the fixed
`order_response_schema`, embedded here as `validateOrdersResponse`. -/
def PromptComposer.compose (count : Nat) (dateRangeDays : Nat) (productsJson : String) : String :=
  "Generate " ++ toString count ++ " realistic orders using the following products:\n" ++
  productsJson ++ "\n\n" ++
  "The orders should be generated within the last " ++ toString dateRangeDays ++ " days.\n\n" ++
  "Return a JSON object with an \x27orders\x27 array containing the generated orders.\n" ++
  "Each order must follow this exact structure for Shopify draft orders:\n" ++
  orderStructureText

/-- Result of a preview: the candidate records (or a fatal pipeline
error) together with the trace of commerce API calls issued. -/
structure PreviewResult where
  records : Except PipelineError (List Json)
  calls : List ApiCall

/-- Modelled from the spec: `PreviewService.preview` (spec §4.6); the
backend Python implementation is not in the source tree.  Exactly the
composition of `CatalogSnapshot.fetch`, `PromptComposer.compose` and
`SchemaValidatingGenerator.generate`, with no `BatchApplier.apply` step:
the only commerce API call is the catalog read. -/
def PreviewService.preview (remoteCatalog : Option (List CatalogItem)) (limit : Nat)
    (count dateRangeDays : Nat)
    (modelCall : String → Nat → Except String String)
    (parse : String → Option Json) (maxAttempts : Nat) : PreviewResult :=
  let fetched := CatalogSnapshot.fetch remoteCatalog limit
  match fetched.1 with
  | .error e => ⟨.error e, fetched.2⟩
  | .ok items =>
    let prompt := PromptComposer.compose count dateRangeDays (serializeCatalog items)
    let gen := SchemaValidatingGenerator.generate (modelCall prompt) parse
      validateOrdersResponse maxAttempts
    match gen.result with
    | .error e => ⟨.error (liftGenError e), fetched.2⟩
    | .ok recs => ⟨.ok recs, fetched.2⟩

/-- Field access on a JSON object value. -/
def fieldOf (j : Json) (k : String) : Option Json :=
  match j with
  | .obj fs => lookupField fs k
  | _ => none

/-- The `lineItems` array of an order draft, when present. -/
def lineItemsOf (j : Json) : Option (List Json) :=
  match fieldOf j "lineItems" with
  | some (.arr xs) => some xs
  | _ => none

/-- The `variantId` string of a line item, when present. -/
def variantIdOf (j : Json) : Option String :=
  match fieldOf j "variantId" with
  | some (.str s) => some s
  | _ => none

/-- The `quantity` integer of a line item, when present. -/
def quantityOf (j : Json) : Option Int :=
  match fieldOf j "quantity" with
  | some (.num n) => some n
  | _ => none

/-- The `customAttributes` array of an order draft, when present. -/
def customAttributesOf (j : Json) : Option (List Json) :=
  match fieldOf j "customAttributes" with
  | some (.arr xs) => some xs
  | _ => none

/-- The `tags` array of an order draft, when present. -/
def tagsOf (j : Json) : Option (List Json) :=
  match fieldOf j "tags" with
  | some (.arr xs) => some xs
  | _ => none

/-- The `adjustment` integer of an inventory adjustment, when present. -/
def adjustmentOf (j : Json) : Option Int :=
  match fieldOf j "adjustment" with
  | some (.num n) => some n
  | _ => none

/-- The `reason` string of an inventory adjustment, when present. -/
def reasonOf (j : Json) : Option String :=
  match fieldOf j "reason" with
  | some (.str s) => some s
  | _ => none

/-- The integer `variant_id` of an inventory adjustment, when present. -/
def variantIdIntOf (j : Json) : Option Int :=
  match fieldOf j "variant_id" with
  | some (.num n) => some n
  | _ => none

/-- The integer `product_id` of an inventory adjustment, when present. -/
def productIdIntOf (j : Json) : Option Int :=
  match fieldOf j "product_id" with
  | some (.num n) => some n
  | _ => none

/-- Following the claim's words (spec §3): the draft carries the marker
tag `AI_GENERATED` in its `tags` array. -/
def specHasMarkerTag (j : Json) : Bool :=
  match tagsOf j with
  | some xs => xs.any (fun t =>
      match t with
      | .str s => s == markerTag
      | _ => false)
  | none => false

/-- Following the claim's words: some custom attribute has the given key. -/
def hasAttrKey (xs : List Json) (k : String) : Bool :=
  xs.any (fun a =>
    match fieldOf a "key" with
    | some (.str s) => s == k
    | _ => false)

/-- Following the claim's words: some custom attribute is exactly
`source = synthetic_data`. -/
def hasSourceSyntheticAttr (xs : List Json) : Bool :=
  xs.any (fun a =>
    (match fieldOf a "key" with
     | some (.str s) => s == "source"
     | _ => false) &&
    (match fieldOf a "value" with
     | some (.str s) => s == "synthetic_data"
     | _ => false))

/-- Following the claim's words (spec §3): the draft carries the two
marker custom attributes `source = synthetic_data` and
`generated_at = <timestamp>`. -/
def specHasMarkerAttributes (j : Json) : Bool :=
  match customAttributesOf j with
  | some xs => hasSourceSyntheticAttr xs && hasAttrKey xs "generated_at"
  | none => false

/-- Following the claim's words (spec §3): the adjustment's `variant_id`
and `product_id` reference catalog entities present in the snapshot used
to generate it. -/
def specReferencesSnapshot (variantIds productIds : List Int) (j : Json) : Bool :=
  (match fieldOf j "variant_id" with
   | some (.num v) => variantIds.contains v
   | _ => false) &&
  (match fieldOf j "product_id" with
   | some (.num p) => productIds.contains p
   | _ => false)

/-- The two record kinds of the pipeline (spec §3 `GenerationRequest`). -/
inductive RecordKind where
  | orders : RecordKind
  | adjustments : RecordKind

/-- The root key of the model response for each record kind (spec §6). -/
def rootKeyFor : RecordKind → String
  | .orders => "orders"
  | .adjustments => "adjustments"

/-- The fixed top-level response schema for each record kind. -/
def responseValidFor : RecordKind → Json → Bool
  | .orders => orderResponseValid
  | .adjustments => inventoryResponseValid

/-- The per-item subschema for each record kind. -/
def itemValidFor : RecordKind → Json → Bool
  | .orders => orderDraftValid
  | .adjustments => inventoryAdjustmentValid

/-- The validation step the generator runs for each record kind. -/
def validateFor : RecordKind → Json → Except String (List Json)
  | .orders => validateOrdersResponse
  | .adjustments => validateAdjustmentsResponse

/-- A line item referencing variant 42 with quantity 2. -/
def exLineItem : Json := .obj
  [("variantId", .str "gid://shopify/ProductVariant/42"),
   ("quantity", .num 2),
   ("taxable", .bool true)]

/-- A complete shipping address. -/
def exAddress : Json := .obj
  [("address1", .str "1 Main St"),
   ("city", .str "Springfield"),
   ("province", .str "IL"),
   ("country", .str "US"),
   ("zip", .str "62701"),
   ("firstName", .str "Ada"),
   ("lastName", .str "Lovelace")]

/-- A fully valid order draft that does carry the marker tag and both
marker custom attributes. -/
def exValidOrder : Json := .obj
  [("email", .str "ada@example.com"),
   ("tags", .arr [.str "AI_GENERATED"]),
   ("lineItems", .arr [exLineItem]),
   ("shippingAddress", exAddress),
   ("note", .str "Created via Synthetic Data Generator"),
   ("customAttributes", .arr
     [.obj [("key", .str "source"), ("value", .str "synthetic_data")],
      .obj [("key", .str "generated_at"), ("value", .str "2024-01-01T00:00:00Z")]])]

/-- An order draft accepted by `order_response_schema` that carries
neither the marker tag (`tags` is the empty array) nor the marker custom
attributes (two unrelated key/value pairs). -/
def exOrderNoMarker : Json := .obj
  [("email", .str "ada@example.com"),
   ("tags", .arr []),
   ("lineItems", .arr [exLineItem]),
   ("shippingAddress", exAddress),
   ("note", .str "Created via Synthetic Data Generator"),
   ("customAttributes", .arr
     [.obj [("key", .str "a"), ("value", .str "b")],
      .obj [("key", .str "c"), ("value", .str "d")]])]

/-- A model response whose `orders` array holds the single valid order. -/
def exOrdersResponse : Json := .obj [("orders", .arr [exValidOrder])]

/-- A parser recognizing only the fixed raw response `RESP`. -/
def exParse : String → Option Json :=
  fun s => if s = "RESP" then some exOrdersResponse else none

/-- A model that always answers the fixed raw response `RESP`. -/
def exModelCall : Nat → Except String String := fun _ => .ok "RESP"

/-- The schema-valid response with an empty `orders` array. -/
def emptyOrdersResponse : Json := .obj [("orders", .arr [])]

/-- A parser recognizing only the fixed raw response `EMPTY`. -/
def emptyRespParse : String → Option Json :=
  fun s => if s = "EMPTY" then some emptyOrdersResponse else none

/-- One concrete catalog item. -/
def exCatalogItem : CatalogItem := ⟨11, 42, "19.99", "SKU-1", "Widget"⟩

/-- An inventory adjustment accepted by `inventory_response_schema`
whose ids reference no particular catalog. -/
def exAdjustment : Json := .obj
  [("variant_id", .num 999),
   ("product_id", .num 111),
   ("adjustment", .num 3),
   ("sku", .str "SKU-999"),
   ("reason", .str "recount"),
   ("timestamp", .str "2024-01-01T00:00:00Z")]

/-- C1: for every input list of records and every create operation,
`BatchApplier.apply` returns an outcome whose two lists partition the
input — `succeeded.length + failed.length` equals the input length; being
a total fold over the list, a failing create on one item never prevents
the remaining items from being processed. -/
theorem batchApply_partitions_input {α β : Type} (records : List α)
    (create : α → Except String β) :
    (BatchApplier.apply records create).succeeded.length +
      (BatchApplier.apply records create).failed.length = records.length := by
  induction records with
  | nil => rfl
  | cons r rest ih =>
    cases h : create r <;> simp [BatchApplier.apply, h] <;> omega

/-- C7: `BatchApplier.apply` processes records in input-list order, and
each output list is exactly the order-preserving projection of the input:
`succeeded` is the input filtered to the records whose create succeeded
(mapped to the remote result) and `failed` is the input filtered to the
records whose create failed (paired with the reason), so relative order
within each list equals relative order in the input. -/
theorem batchApply_preserves_input_order {α β : Type} (records : List α)
    (create : α → Except String β) :
    BatchApplier.apply records create =
      ⟨records.filterMap (fun r => (create r).toOption),
       records.filterMap (fun r =>
         match create r with
         | .ok _ => none
         | .error e => some (r, e))⟩ := by
  induction records with
  | nil => rfl
  | cons r rest ih =>
    cases h : create r <;>
      simp [BatchApplier.apply, h, ih, List.filterMap_cons, Except.toOption]

/-- C6: when no marker-tagged entity (and no marker-tagged applied
adjustment) remains, `clearGenerated` and `resetInventory` both return the
empty-but-successful outcome `⟨[], []⟩`; both are total functions into
`ApplyOutcome`, so they never raise an error. -/
theorem clear_reset_empty_is_success (entities : List RemoteEntity)
    (history : List AppliedAdjustment)
    (deleteOp : RemoteEntity → Except String Nat)
    (adjustOp : Int → Int → Except String Nat)
    (hE : taggedEntities entities = [])
    (hH : taggedAdjustments history = []) :
    clearGenerated entities deleteOp = ⟨[], []⟩ ∧
    resetInventory history adjustOp = ⟨[], []⟩ := by
  unfold clearGenerated resetInventory
  rw [hE, hH]
  exact ⟨rfl, rfl⟩

/-- Witness for C6: a store whose only order is hand-made (not
marker-tagged) and whose adjustment history is empty yields the empty
successful outcome for both operations. -/
theorem clear_reset_empty_is_success_witness :
    clearGenerated [⟨7, ["manual"]⟩] (fun e => .ok e.entityId) = ⟨[], []⟩ ∧
    resetInventory [] (fun _ _ => .ok 0) = ⟨[], []⟩ :=
  clear_reset_empty_is_success [⟨7, ["manual"]⟩] [] (fun e => .ok e.entityId)
    (fun _ _ => .ok 0) rfl rfl

/-- C9: in the Remix `action` handler, any submitted action value other
than `preview`, `generate-orders`, `generate-inventory` or `clear` —
including a missing value (`none`) — selects the `/reset-inventory`
endpoint rather than producing an error. -/
theorem unknown_action_routes_to_reset (a : Option String)
    (h1 : a ≠ some "preview") (h2 : a ≠ some "generate-orders")
    (h3 : a ≠ some "generate-inventory") (h4 : a ≠ some "clear") :
    endpointFor a = "/reset-inventory" := by
  simp [endpointFor, h1, h2, h3, h4]

/-- Witness for C9: the value `reset` actually submitted by the UI's Reset
Inventory button is not one of the four recognized values, and lands on
`/reset-inventory`. -/
theorem unknown_action_routes_to_reset_witness :
    endpointFor (some "reset") = "/reset-inventory" :=
  unknown_action_routes_to_reset (some "reset") (by decide) (by decide)
    (by decide) (by decide)

/-- C10: the request body built by the Remix `action` handler sends
`num_items = 5` whenever `parseInt` of the submitted count is `NaN` or
`0`, and `date_range_days = 30` whenever `parseInt` of the submitted
date range is `NaN` or `0`; in particular a user-entered count of `"0"`
is sent as `5`. -/
theorem request_body_zero_or_nan_defaults (count dateRange : Option String)
    (hc : jsParseInt (formValueAsString count) = none ∨
          jsParseInt (formValueAsString count) = some 0)
    (hd : jsParseInt (formValueAsString dateRange) = none ∨
          jsParseInt (formValueAsString dateRange) = some 0) :
    requestNumItems count = 5 ∧ requestDateRangeDays dateRange = 30 ∧
      requestNumItems (some "0") = 5 := by
  refine ⟨?_, ?_, rfl⟩
  · rcases hc with h | h <;> simp [requestNumItems, jsOrDefault, h]
  · rcases hd with h | h <;> simp [requestDateRangeDays, jsOrDefault, h]

/-- Witness for C10: a non-numeric count and a zero date range take the
defaults; the count `"0"` is sent as `5`. -/
theorem request_body_zero_or_nan_defaults_witness :
    requestNumItems (some "abc") = 5 ∧ requestDateRangeDays (some "0") = 30 ∧
      requestNumItems (some "0") = 5 :=
  request_body_zero_or_nan_defaults (some "abc") (some "0")
    (Or.inl rfl) (Or.inr rfl)

/-- C8: preview is exactly the composition of `CatalogSnapshot.fetch`,
`PromptComposer.compose` and `SchemaValidatingGenerator.generate`
(first conjunct), and it never invokes `BatchApplier.apply`: its commerce
API trace is the single catalog read, which is not a create mutation, so
running the trace leaves any remote store state unchanged. -/
theorem preview_pure_composition_no_mutation
    (remoteCatalog : Option (List CatalogItem)) (limit count dateRangeDays : Nat)
    (modelCall : String → Nat → Except String String)
    (parse : String → Option Json) (maxAttempts : Nat) (s : StoreState) :
    (PreviewService.preview remoteCatalog limit count dateRangeDays modelCall
        parse maxAttempts).records =
      (match (CatalogSnapshot.fetch remoteCatalog limit).1 with
       | .error e => .error e
       | .ok items =>
         match (SchemaValidatingGenerator.generate
             (modelCall (PromptComposer.compose count dateRangeDays
               (serializeCatalog items)))
             parse validateOrdersResponse maxAttempts).result with
         | .error e => .error (liftGenError e)
         | .ok recs => .ok recs) ∧
    (PreviewService.preview remoteCatalog limit count dateRangeDays modelCall
        parse maxAttempts).calls = [ApiCall.fetchProducts limit] ∧
    ((PreviewService.preview remoteCatalog limit count dateRangeDays modelCall
        parse maxAttempts).calls.all (fun c => !isMutationCall c)) = true ∧
    runCalls s (PreviewService.preview remoteCatalog limit count dateRangeDays
        modelCall parse maxAttempts).calls = s := by
  refine ⟨?_, ?_, ?_, ?_⟩ <;>
    unfold PreviewService.preview <;>
    cases hc : remoteCatalog with
  | none => rfl
  | some items =>
    unfold CatalogSnapshot.fetch
    cases h : items.isEmpty <;>
      simp [h, runCalls, applyCall, isMutationCall] <;>
      cases hr : (SchemaValidatingGenerator.generate
          (modelCall (PromptComposer.compose count dateRangeDays
            (serializeCatalog (items.take limit))))
          parse validateOrdersResponse maxAttempts).result <;>
      simp [hr, runCalls, applyCall, isMutationCall]

/-- Helper: on a window of attempts that all fail validation, the retry
loop consumes the whole window and reports the validation error of the
last attempt. -/
theorem generateLoop_all_invalid (step : Nat → AttemptResult) :
    ∀ (f used : Nat) (seed eLast : String),
    (∀ i, i ≤ f → ∃ e, step (used + i) = .invalid e) →
    step (used + f) = .invalid eLast →
    generateLoop step used (f + 1) seed =
      ⟨.error (.generationInvalid eLast), used + f + 1⟩ := by
  intro f
  induction f with
  | zero =>
    intro used seed eLast _ hlast
    simp only [Nat.add_zero] at hlast
    simp [generateLoop, hlast]
  | succ f ih =>
    intro used seed eLast hall hlast
    obtain ⟨e0, h0⟩ := hall 0 (Nat.zero_le _)
    simp only [Nat.add_zero] at h0
    have hstep : generateLoop step used (f + 1 + 1) seed =
        generateLoop step (used + 1) (f + 1) e0 := by
      simp [generateLoop, h0]
    rw [hstep]
    have hall' : ∀ i, i ≤ f → ∃ e, step (used + 1 + i) = .invalid e := by
      intro i hi
      obtain ⟨e, he⟩ := hall (i + 1) (by omega)
      refine ⟨e, ?_⟩
      have harith : used + 1 + i = used + (i + 1) := by omega
      rw [harith]
      exact he
    have hlast' : step (used + 1 + f) = .invalid eLast := by
      have harith : used + 1 + f = used + (f + 1) := by omega
      rw [harith]
      exact hlast
    have hrec := ih (used + 1) e0 eLast hall' hlast'
    rw [hrec]
    have harith : used + 1 + f + 1 = used + (f + 1) + 1 := by omega
    rw [harith]

/-- C2: if every model invocation yields output that fails parsing or
schema validation, `SchemaValidatingGenerator.generate` fails with
`GenerationInvalid` carrying the last attempt's validation error after
exactly `maxAttempts` model invocations — never more, and never a record
list. -/
theorem generate_all_invalid_exhausts_budget
    (modelCall : Nat → Except String String) (parse : String → Option Json)
    (validate : Json → Except String (List Json)) (maxAttempts : Nat)
    (eLast : String)
    (hpos : 0 < maxAttempts)
    (hfail : ∀ i, i < maxAttempts →
      ∃ e, attemptStep modelCall parse validate i = .invalid e)
    (hlast : attemptStep modelCall parse validate (maxAttempts - 1) = .invalid eLast) :
    SchemaValidatingGenerator.generate modelCall parse validate maxAttempts =
      ⟨.error (.generationInvalid eLast), maxAttempts⟩ := by
  obtain ⟨f, rfl⟩ : ∃ f, maxAttempts = f + 1 := ⟨maxAttempts - 1, by omega⟩
  unfold SchemaValidatingGenerator.generate
  have hall : ∀ i, i ≤ f →
      ∃ e, attemptStep modelCall parse validate (0 + i) = .invalid e := by
    intro i hi
    simpa using hfail i (by omega)
  have hlast' : attemptStep modelCall parse validate (0 + f) = .invalid eLast := by
    simpa using hlast
  have hloop := generateLoop_all_invalid (attemptStep modelCall parse validate)
    f 0 "no attempt was made" eLast hall hlast'
  simpa using hloop

/-- Witness for C2: a model that always answers unparseable text makes the
generator fail with `GenerationInvalid` after exactly 3 of 3 attempts. -/
theorem generate_all_invalid_exhausts_budget_witness :
    SchemaValidatingGenerator.generate (fun _ => .ok "not json") (fun _ => none)
        validateOrdersResponse 3 =
      ⟨.error (.generationInvalid "model output did not parse as structured data"), 3⟩ :=
  generate_all_invalid_exhausts_budget (fun _ => .ok "not json") (fun _ => none)
    validateOrdersResponse 3 "model output did not parse as structured data"
    (by omega) (fun i _ => ⟨"model output did not parse as structured data", rfl⟩) rfl

/-- Helper: a `properties` constraint plus a successful lookup force the
subschema on the looked-up value. -/
theorem propValid_lookup (fs : List (String × Json)) (k : String)
    (p : Json → Bool) (v : Json) (hl : lookupField fs k = some v)
    (hp : propValid fs k p = true) : p v = true := by
  unfold propValid at hp
  rw [hl] at hp
  exact hp

/-- Helper: a satisfied `required` constraint yields the field's value. -/
theorem required_lookup (fs : List (String × Json)) (k : String)
    (hr : requiredPresent fs k = true) : ∃ v, lookupField fs k = some v := by
  unfold requiredPresent at hr
  cases h : lookupField fs k with
  | none => rw [h] at hr; simp at hr
  | some v => exact ⟨v, rfl⟩

/-- Helper: a successful run of the retry loop made at least one attempt
and took its records from the last attempt made. -/
theorem generateLoop_ok_source (step : Nat → AttemptResult) :
    ∀ (fuel used : Nat) (seed : String) (recs : List Json) (k : Nat),
    generateLoop step used fuel seed = ⟨.ok recs, k⟩ →
    used < k ∧ step (k - 1) = .valid recs := by
  intro fuel
  induction fuel with
  | zero =>
    intro used seed recs k h
    simp [generateLoop] at h
  | succ fuel ih =>
    intro used seed recs k h
    cases hs : step used with
    | modelErr e =>
      simp [generateLoop, hs] at h
    | valid r =>
      simp only [generateLoop, hs] at h
      have hres := congrArg GenOutcome.result h
      have hatt := congrArg GenOutcome.attemptsMade h
      simp only at hres hatt
      have hr : r = recs := by simpa using hres
      refine ⟨by omega, ?_⟩
      have hk1 : k - 1 = used := by omega
      rw [hk1, hs, hr]
    | invalid e =>
      simp only [generateLoop, hs] at h
      obtain ⟨hlt, hstep⟩ := ih (used + 1) e recs k h
      exact ⟨by omega, hstep⟩

/-- Helper: a `valid` attempt came from a model success whose output
parsed and whose validation accepted, yielding exactly those records. -/
theorem attemptStep_valid_source (modelCall : Nat → Except String String)
    (parse : String → Option Json) (validate : Json → Except String (List Json))
    (i : Nat) (recs : List Json)
    (h : attemptStep modelCall parse validate i = .valid recs) :
    ∃ raw j, modelCall i = .ok raw ∧ parse raw = some j ∧
      validate j = .ok recs := by
  unfold attemptStep at h
  split at h
  next e heq => simp at h
  next raw heq =>
    split at h
    next hp0 => simp at h
    next j hp0 =>
      split at h
      next e hv0 => simp at h
      next r hv0 =>
        simp only [AttemptResult.valid.injEq] at h
        exact ⟨raw, j, heq, hp0, by rw [hv0, h]⟩

/-- Helper: a response accepted by the orders validation step both matches
`order_response_schema` and surrenders its `orders` array verbatim. -/
theorem validateOrders_ok_shape (j : Json) (recs : List Json)
    (h : validateOrdersResponse j = .ok recs) :
    orderResponseValid j = true ∧ rootArray "orders" j = some recs := by
  unfold validateOrdersResponse at h
  cases hv : orderResponseValid j with
  | false => rw [hv] at h; simp at h
  | true =>
    rw [hv] at h
    simp only [if_true] at h
    cases hr : rootArray "orders" j with
    | none => rw [hr] at h; simp at h
    | some xs =>
      rw [hr] at h
      simp only [Except.ok.injEq] at h
      exact ⟨rfl, by rw [h]⟩

/-- Helper: mirror of `validateOrders_ok_shape` for adjustments. -/
theorem validateAdjustments_ok_shape (j : Json) (recs : List Json)
    (h : validateAdjustmentsResponse j = .ok recs) :
    inventoryResponseValid j = true ∧ rootArray "adjustments" j = some recs := by
  unfold validateAdjustmentsResponse at h
  cases hv : inventoryResponseValid j with
  | false => rw [hv] at h; simp at h
  | true =>
    rw [hv] at h
    simp only [if_true] at h
    cases hr : rootArray "adjustments" j with
    | none => rw [hr] at h; simp at h
    | some xs =>
      rw [hr] at h
      simp only [Except.ok.injEq] at h
      exact ⟨rfl, by rw [h]⟩

/-- Helper: a response matching `order_response_schema` has every element
of its `orders` array accepted by the order item subschema. -/
theorem orderResponse_elements_valid (j : Json) (recs : List Json)
    (hv : orderResponseValid j = true)
    (hr : rootArray "orders" j = some recs) :
    recs.all orderDraftValid = true := by
  cases j with
  | obj fs =>
    simp only [orderResponseValid, Bool.and_eq_true] at hv
    cases hl : lookupField fs "orders" with
    | none => simp [rootArray, hl] at hr
    | some v =>
      have hp := propValid_lookup fs "orders" _ v hl hv.1
      cases v with
      | arr xs =>
        simp [rootArray, hl] at hr
        rw [← hr]
        simpa using hp
      | null => simp [rootArray, hl] at hr
      | bool b => simp [rootArray, hl] at hr
      | num n => simp [rootArray, hl] at hr
      | str s => simp [rootArray, hl] at hr
      | obj o => simp [rootArray, hl] at hr
  | null => simp [orderResponseValid] at hv
  | bool b => simp [orderResponseValid] at hv
  | num n => simp [orderResponseValid] at hv
  | str s => simp [orderResponseValid] at hv
  | arr xs => simp [orderResponseValid] at hv

/-- Helper: mirror of `orderResponse_elements_valid` for adjustments. -/
theorem inventoryResponse_elements_valid (j : Json) (recs : List Json)
    (hv : inventoryResponseValid j = true)
    (hr : rootArray "adjustments" j = some recs) :
    recs.all inventoryAdjustmentValid = true := by
  cases j with
  | obj fs =>
    simp only [inventoryResponseValid, Bool.and_eq_true] at hv
    cases hl : lookupField fs "adjustments" with
    | none => simp [rootArray, hl] at hr
    | some v =>
      have hp := propValid_lookup fs "adjustments" _ v hl hv.1
      cases v with
      | arr xs =>
        simp [rootArray, hl] at hr
        rw [← hr]
        simpa using hp
      | null => simp [rootArray, hl] at hr
      | bool b => simp [rootArray, hl] at hr
      | num n => simp [rootArray, hl] at hr
      | str s => simp [rootArray, hl] at hr
      | obj o => simp [rootArray, hl] at hr
  | null => simp [inventoryResponseValid] at hv
  | bool b => simp [inventoryResponseValid] at hv
  | num n => simp [inventoryResponseValid] at hv
  | str s => simp [inventoryResponseValid] at hv
  | arr xs => simp [inventoryResponseValid] at hv

/-- C3 (amended): a successful `SchemaValidatingGenerator.generate` run
returns the record list taken verbatim from the `orders` or `adjustments`
root key of the final parsed model response, and every returned record
satisfies the structural subschema of its kind, so callers need not
re-validate; the requested count is embedded in the prompt but is not
enforced by schema validation (see the counterexample). -/
theorem generate_ok_records_validated (kind : RecordKind)
    (modelCall : Nat → Except String String) (parse : String → Option Json)
    (maxAttempts : Nat) (recs : List Json) (k : Nat)
    (h : SchemaValidatingGenerator.generate modelCall parse (validateFor kind)
        maxAttempts = ⟨.ok recs, k⟩) :
    (∃ raw j, modelCall (k - 1) = .ok raw ∧ parse raw = some j ∧
        responseValidFor kind j = true ∧
        rootArray (rootKeyFor kind) j = some recs) ∧
    recs.all (itemValidFor kind) = true := by
  unfold SchemaValidatingGenerator.generate at h
  obtain ⟨-, hstep⟩ := generateLoop_ok_source _ _ _ _ _ _ h
  obtain ⟨raw, j, hm, hp, hval⟩ := attemptStep_valid_source _ _ _ _ _ hstep
  cases kind with
  | orders =>
    obtain ⟨hv, hr⟩ := validateOrders_ok_shape j recs hval
    exact ⟨⟨raw, j, hm, hp, hv, hr⟩, orderResponse_elements_valid j recs hv hr⟩
  | adjustments =>
    obtain ⟨hv, hr⟩ := validateAdjustments_ok_shape j recs hval
    exact ⟨⟨raw, j, hm, hp, hv, hr⟩, inventoryResponse_elements_valid j recs hv hr⟩

/-- Witness for C3: a concrete successful run over the one-order response
returns that order verbatim, already schema-valid. -/
theorem generate_ok_records_validated_witness :
    (∃ raw j, exModelCall (1 - 1) = .ok raw ∧ exParse raw = some j ∧
        responseValidFor .orders j = true ∧
        rootArray (rootKeyFor .orders) j = some [exValidOrder]) ∧
    ([exValidOrder].all (itemValidFor .orders)) = true :=
  generate_ok_records_validated .orders exModelCall exParse 3 [exValidOrder] 1 rfl

/-- Counterexample for C3 as stated: a preview request with count 5 whose
model response is the schema-valid empty-orders object succeeds with 0
records, not 5 — validation does not enforce the requested count. -/
theorem generate_count_not_enforced :
    (PreviewService.preview (some [exCatalogItem]) 10 5 30
        (fun _ _ => .ok "EMPTY") emptyRespParse 3).records = .ok [] ∧
    ([] : List Json).length ≠ 5 := ⟨rfl, by decide⟩

/-- Helper: a line item accepted by the subschema yields its `variantId`
matching the gid pattern and its `quantity` within bounds. -/
theorem lineItem_fields (li : Json) (h : lineItemValid li = true) :
    ∃ v, variantIdOf li = some v ∧ variantIdPattern v = true ∧
      ∃ q, quantityOf li = some q ∧ 1 ≤ q ∧ q ≤ 5 := by
  cases li with
  | obj fs =>
    simp only [lineItemValid, Bool.and_eq_true] at h
    obtain ⟨⟨⟨⟨hvar, hq⟩, htax⟩, hreqv⟩, hreqq⟩ := h
    obtain ⟨v, hv⟩ := required_lookup fs "variantId" hreqv
    obtain ⟨q, hq2⟩ := required_lookup fs "quantity" hreqq
    have hpv := propValid_lookup fs "variantId" _ v hv hvar
    have hpq := propValid_lookup fs "quantity" _ q hq2 hq
    cases v with
    | str s =>
      cases q with
      | num n =>
        have hb : 1 ≤ n ∧ n ≤ 5 := by simpa using hpq
        refine ⟨s, ?_, ?_, n, ?_, hb.1, hb.2⟩
        · simp [variantIdOf, fieldOf, hv]
        · simpa using hpv
        · simp [quantityOf, fieldOf, hq2]
      | null => simp at hpq
      | bool b => simp at hpq
      | str s2 => simp at hpq
      | arr xs => simp at hpq
      | obj o => simp at hpq
    | null => simp at hpv
    | bool b => simp at hpv
    | num m => simp at hpv
    | arr xs => simp at hpv
    | obj o => simp at hpv
  | null => simp [lineItemValid] at h
  | bool b => simp [lineItemValid] at h
  | num n => simp [lineItemValid] at h
  | str s => simp [lineItemValid] at h
  | arr xs => simp [lineItemValid] at h

/-- C4 (amended): every order draft accepted by schema validation has a
non-empty `lineItems` array whose items all reference a
`gid://shopify/ProductVariant/<integer>` variant with quantity in [1,5],
and at least two key/value custom attributes; the marker tag
`AI_GENERATED` and the marker attribute values are only a schema `default`
and prompt guidance, not enforced (see the counterexample). -/
theorem orderDraft_schema_invariants (j : Json) (h : orderDraftValid j = true) :
    (∃ items, lineItemsOf j = some items ∧ items ≠ [] ∧
      ∀ li ∈ items, ∃ v, variantIdOf li = some v ∧ variantIdPattern v = true ∧
        ∃ q, quantityOf li = some q ∧ 1 ≤ q ∧ q ≤ 5) ∧
    (∃ attrs, customAttributesOf j = some attrs ∧ 2 ≤ attrs.length) := by
  cases j with
  | obj fs =>
    simp only [orderDraftValid, Bool.and_eq_true] at h
    obtain ⟨⟨⟨⟨⟨⟨hemail, htags⟩, hitems⟩, haddr⟩, hnote⟩, hattrs⟩, hreq⟩ := h
    rw [List.all_eq_true] at hreq
    have hLI : requiredPresent fs "lineItems" = true :=
      hreq _ (by simp [orderRequiredFields])
    have hCA : requiredPresent fs "customAttributes" = true :=
      hreq _ (by simp [orderRequiredFields])
    obtain ⟨vLI, hvLI⟩ := required_lookup fs "lineItems" hLI
    obtain ⟨vCA, hvCA⟩ := required_lookup fs "customAttributes" hCA
    have hpLI := propValid_lookup fs "lineItems" _ vLI hvLI hitems
    have hpCA := propValid_lookup fs "customAttributes" _ vCA hvCA hattrs
    constructor
    · cases vLI with
      | arr xs =>
        have hx : (∀ li ∈ xs, lineItemValid li = true) ∧ 1 ≤ xs.length := by
          simpa [List.all_eq_true] using hpLI
        refine ⟨xs, by simp [lineItemsOf, fieldOf, hvLI], ?_, ?_⟩
        · intro hnil
          rw [hnil] at hx
          simp at hx
        · intro li hli
          exact lineItem_fields li (hx.1 li hli)
      | null => simp at hpLI
      | bool b => simp at hpLI
      | num n => simp at hpLI
      | str s => simp at hpLI
      | obj o => simp at hpLI
    · cases vCA with
      | arr xs =>
        have hx : (∀ a ∈ xs, customAttributeValid a = true) ∧ 2 ≤ xs.length := by
          simpa [List.all_eq_true] using hpCA
        exact ⟨xs, by simp [customAttributesOf, fieldOf, hvCA], hx.2⟩
      | null => simp at hpCA
      | bool b => simp at hpCA
      | num n => simp at hpCA
      | str s => simp at hpCA
      | obj o => simp at hpCA
  | null => simp [orderDraftValid] at h
  | bool b => simp [orderDraftValid] at h
  | num n => simp [orderDraftValid] at h
  | str s => simp [orderDraftValid] at h
  | arr xs => simp [orderDraftValid] at h

/-- Witness for C4: the marker-bearing valid order satisfies the amended
structural guarantees. -/
theorem orderDraft_schema_invariants_witness :
    (∃ items, lineItemsOf exValidOrder = some items ∧ items ≠ [] ∧
      ∀ li ∈ items, ∃ v, variantIdOf li = some v ∧ variantIdPattern v = true ∧
        ∃ q, quantityOf li = some q ∧ 1 ≤ q ∧ q ≤ 5) ∧
    (∃ attrs, customAttributesOf exValidOrder = some attrs ∧ 2 ≤ attrs.length) :=
  orderDraft_schema_invariants exValidOrder rfl

/-- Counterexample for C4 as stated: `exOrderNoMarker` is accepted by the
order item subschema of `order_response_schema` yet carries neither the
marker tag `AI_GENERATED` nor the marker custom attributes — the schema
only defaults `tags` and requires two arbitrary key/value attributes. -/
theorem orderDraft_marker_not_enforced :
    orderDraftValid exOrderNoMarker = true ∧
    specHasMarkerTag exOrderNoMarker = false ∧
    specHasMarkerAttributes exOrderNoMarker = false :=
  ⟨rfl, rfl, rfl⟩

/-- C5 (amended): every inventory adjustment accepted by schema validation
has an integer `adjustment` in [-5,10], a `reason` from the fixed enum
{recount, received, damaged, sold}, and integer `variant_id` and
`product_id` fields present; the fixed schema does not (and cannot) check
those ids against the catalog snapshot (see the counterexample). -/
theorem adjustment_schema_invariants (j : Json)
    (h : inventoryAdjustmentValid j = true) :
    (∃ a, adjustmentOf j = some a ∧ -5 ≤ a ∧ a ≤ 10) ∧
    (∃ r, reasonOf j = some r ∧ reasonEnum.contains r = true) ∧
    (∃ v, variantIdIntOf j = some v) ∧
    (∃ p, productIdIntOf j = some p) := by
  cases j with
  | obj fs =>
    simp only [inventoryAdjustmentValid, Bool.and_eq_true] at h
    obtain ⟨⟨⟨⟨⟨⟨hvar, hprod⟩, hadj⟩, hsku⟩, hreason⟩, hts⟩, hreq⟩ := h
    rw [List.all_eq_true] at hreq
    have hA : requiredPresent fs "adjustment" = true := hreq _ (by simp)
    have hR : requiredPresent fs "reason" = true := hreq _ (by simp)
    have hV : requiredPresent fs "variant_id" = true := hreq _ (by simp)
    have hP : requiredPresent fs "product_id" = true := hreq _ (by simp)
    obtain ⟨va, hva⟩ := required_lookup fs "adjustment" hA
    obtain ⟨vr, hvr⟩ := required_lookup fs "reason" hR
    obtain ⟨vv, hvv⟩ := required_lookup fs "variant_id" hV
    obtain ⟨vp, hvp⟩ := required_lookup fs "product_id" hP
    have hpa := propValid_lookup fs "adjustment" _ va hva hadj
    have hpr := propValid_lookup fs "reason" _ vr hvr hreason
    have hpv := propValid_lookup fs "variant_id" _ vv hvv hvar
    have hpp := propValid_lookup fs "product_id" _ vp hvp hprod
    refine ⟨?_, ?_, ?_, ?_⟩
    · cases va with
      | num n =>
        have hb : -5 ≤ n ∧ n ≤ 10 := by simpa using hpa
        exact ⟨n, by simp [adjustmentOf, fieldOf, hva], hb.1, hb.2⟩
      | null => simp at hpa
      | bool b => simp at hpa
      | str s => simp at hpa
      | arr xs => simp at hpa
      | obj o => simp at hpa
    · cases vr with
      | str s =>
        refine ⟨s, by simp [reasonOf, fieldOf, hvr], ?_⟩
        simpa using hpr
      | null => simp at hpr
      | bool b => simp at hpr
      | num n => simp at hpr
      | arr xs => simp at hpr
      | obj o => simp at hpr
    · cases vv with
      | num n => exact ⟨n, by simp [variantIdIntOf, fieldOf, hvv]⟩
      | null => simp [isIntJson] at hpv
      | bool b => simp [isIntJson] at hpv
      | str s => simp [isIntJson] at hpv
      | arr xs => simp [isIntJson] at hpv
      | obj o => simp [isIntJson] at hpv
    · cases vp with
      | num n => exact ⟨n, by simp [productIdIntOf, fieldOf, hvp]⟩
      | null => simp [isIntJson] at hpp
      | bool b => simp [isIntJson] at hpp
      | str s => simp [isIntJson] at hpp
      | arr xs => simp [isIntJson] at hpp
      | obj o => simp [isIntJson] at hpp
  | null => simp [inventoryAdjustmentValid] at h
  | bool b => simp [inventoryAdjustmentValid] at h
  | num n => simp [inventoryAdjustmentValid] at h
  | str s => simp [inventoryAdjustmentValid] at h
  | arr xs => simp [inventoryAdjustmentValid] at h

/-- Witness for C5: the concrete valid adjustment satisfies the amended
guarantees. -/
theorem adjustment_schema_invariants_witness :
    (∃ a, adjustmentOf exAdjustment = some a ∧ -5 ≤ a ∧ a ≤ 10) ∧
    (∃ r, reasonOf exAdjustment = some r ∧ reasonEnum.contains r = true) ∧
    (∃ v, variantIdIntOf exAdjustment = some v) ∧
    (∃ p, productIdIntOf exAdjustment = some p) :=
  adjustment_schema_invariants exAdjustment rfl

/-- Counterexample for C5 as stated: `exAdjustment` is accepted by the
adjustment subschema of `inventory_response_schema`, yet its
`variant_id`/`product_id` reference no entity of the snapshot (variants
{42}, products {11}) — schema validation does not check catalog
membership. -/
theorem adjustment_catalog_not_enforced :
    inventoryAdjustmentValid exAdjustment = true ∧
    specReferencesSnapshot [42] [11] exAdjustment = false :=
  ⟨rfl, rfl⟩
